import Mathlib

/-!
Verification of the Understandly Lockdown enforcement shell (src/main.rs).

The development shallowly embeds the relevant parts of the Rust source:
the URI localizer `to_local`, the low-level keyboard hook decision
`keyboard_hook_proc`, the window-event handler `on_window_event`, the
emergency-exit (escape valve) shortcut logic, the deep-link `on_open_url`
handler, the monitor-count queries, and the startup sequence of `main`.
Machine integers are modelled as `Nat`/`Int`; OS side effects are modelled
as explicit data (decisions, action lists, state transitions).
-/

namespace Lockdown

/-! ## String helpers

Rust's `str::trim_end_matches('/')` and `str::trim_start_matches('/')`
remove every trailing (resp. leading) occurrence of the slash character.
-/

/-- Embedding of Rust `s.trim_start_matches('/')`: drop all leading slashes. -/
def trimStartSlashes (s : String) : String :=
  ⟨s.data.dropWhile (fun c => c == '/')⟩

/-- Embedding of Rust `s.trim_end_matches('/')`: drop all trailing slashes. -/
def trimEndSlashes (s : String) : String :=
  ⟨(s.data.reverse.dropWhile (fun c => c == '/')).reverse⟩

/-! ## URI Localizer

Embedding of `fn to_local(link: &Url, base: &str) -> String`.  A parsed
`url::Url` is represented by the three accessors the function reads:
`host_str()` (`Option`), `path()` (always a `&str`), `query()` (`Option`).
-/

structure Url where
  host : Option String
  path : String
  query : Option String
deriving DecidableEq

/-- Embedding of `to_local` from src/main.rs: start from the base with
trailing slashes stripped; append `/` and the host (its leading slashes
stripped) when the host is present and non-empty; append `/` and the path
(leading slashes stripped) when that is non-empty; append `?` and the
query verbatim when present. -/
def to_local (link : Url) (base : String) : String :=
  let target := trimEndSlashes base
  let target :=
    match link.host with
    | some host => if host.isEmpty then target else target ++ "/" ++ trimStartSlashes host
    | none => target
  let path := trimStartSlashes link.path
  let target := if path.isEmpty then target else target ++ "/" ++ path
  match link.query with
  | some q => target ++ "?" ++ q
  | none => target

/-- Modelled from the spec: the shape the specification prescribes for the
localizer result, `B` + (`/H` if H non-empty) + (`/P` if P non-empty) +
(`?Q` if Q present), used as the refinement target for `to_local`. -/
def localizeSpec (B H P : String) (Q : Option String) : String :=
  B ++ (if H = "" then "" else "/" ++ H) ++ (if P = "" then "" else "/" ++ P) ++
    (match Q with
     | some q => "?" ++ q
     | none => "")

/-! ## Global Input Guard

Embedding of `windows_security::keyboard_hook_proc`.  A delivered
low-level keyboard event carries the hook code, the message (`wParam`),
and the `KBDLLHOOKSTRUCT` fields `vkCode` and `flags`; the callback also
samples the asynchronous state of the Ctrl key via `GetAsyncKeyState`,
modelled as a boolean field of the event.
-/

def WM_KEYDOWN : Nat := 0x0100
def WM_KEYUP : Nat := 0x0101
def WM_SYSKEYDOWN : Nat := 0x0104
def WM_SYSKEYUP : Nat := 0x0105

def VK_TAB : Nat := 0x09
def VK_ESCAPE : Nat := 0x1B
def VK_LWIN : Nat := 0x5B
def VK_RWIN : Nat := 0x5C
def VK_SNAPSHOT : Nat := 0x2C
def VK_F4 : Nat := 0x73
def VK_F12 : Nat := 0x7B
def VK_C : Nat := 0x43
def VK_V : Nat := 0x56
def VK_P : Nat := 0x50

def LLKHF_ALTDOWN : Nat := 0x20

structure KbdHookEvent where
  code : Int
  wparam : Nat
  vkCode : Nat
  flags : Nat
  ctrlAsyncDown : Bool
deriving DecidableEq

/-- Result of the hook callback: `suppress` models returning `LRESULT(1)`
and `forward` models falling through to `CallNextHookEx`. -/
inductive HookResult where
  | suppress
  | forward
deriving DecidableEq

/-- Embedding of `keyboard_hook_proc` from src/main.rs: for `code >= 0`
and a key-down message (`WM_KEYDOWN` or `WM_SYSKEYDOWN`), return 1
(suppress) for Alt+Tab, Alt+Escape, Alt+F4, either Windows key,
PrintScreen, F12, and Ctrl+C/V/P; otherwise call the next hook. -/
def keyboard_hook_proc (ev : KbdHookEvent) : HookResult :=
  if 0 ≤ ev.code then
    let vk_code := ev.vkCode
    let alt_down := (ev.flags &&& LLKHF_ALTDOWN) != 0
    let ctrl_down := ev.ctrlAsyncDown
    let is_key_down := ev.wparam == WM_KEYDOWN || ev.wparam == WM_SYSKEYDOWN
    if is_key_down then
      if alt_down && vk_code == VK_TAB then .suppress
      else if alt_down && vk_code == VK_ESCAPE then .suppress
      else if alt_down && vk_code == VK_F4 then .suppress
      else if vk_code == VK_LWIN || vk_code == VK_RWIN then .suppress
      else if vk_code == VK_SNAPSHOT then .suppress
      else if vk_code == VK_F12 then .suppress
      else if ctrl_down && (vk_code == VK_C || vk_code == VK_V || vk_code == VK_P)
        then .suppress
      else .forward
    else .forward
  else .forward

/-- The event's message is one of the two key-down messages. -/
def isKeyDownMsg (ev : KbdHookEvent) : Bool :=
  ev.wparam == WM_KEYDOWN || ev.wparam == WM_SYSKEYDOWN

/-- Modelled from the spec: the denylist — Alt held with Tab, Escape or F4;
either meta/super key; the screen-capture key; F12; Ctrl held with C, V
or P. -/
def deniedBySpec (ev : KbdHookEvent) : Bool :=
  let alt := (ev.flags &&& LLKHF_ALTDOWN) != 0
  (alt && (ev.vkCode == VK_TAB || ev.vkCode == VK_ESCAPE || ev.vkCode == VK_F4))
    || ev.vkCode == VK_LWIN || ev.vkCode == VK_RWIN
    || ev.vkCode == VK_SNAPSHOT
    || ev.vkCode == VK_F12
    || (ev.ctrlAsyncDown && (ev.vkCode == VK_C || ev.vkCode == VK_V || ev.vkCode == VK_P))

/-! ## Window Lifecycle Guard

Embedding of the `on_window_event` closure: on `CloseRequested` it calls
`api.prevent_close()`, on `Focused(false)` it calls `window.set_focus()`.
The guard's effect is modelled as the list of actions it performs.
-/

inductive WindowEvent where
  | closeRequested
  | focused (gained : Bool)
  | other
deriving DecidableEq

inductive GuardAction where
  | preventClose
  | setFocus
deriving DecidableEq

/-- Embedding of `on_window_event`: the two pattern checks of the closure
are independent, and each contributes its action when it matches. -/
def on_window_event (ev : WindowEvent) : List GuardAction :=
  (if ev = WindowEvent.closeRequested then [GuardAction.preventClose] else [])
    ++ (if ev = WindowEvent.focused false then [GuardAction.setFocus] else [])

/-- Window-subsystem semantics of one event: a close request closes the
window unless the handler called `prevent_close`; other events leave the
open state unchanged. -/
def applyWindowEvent (isOpen : Bool) (ev : WindowEvent) : Bool :=
  match ev with
  | WindowEvent.closeRequested =>
      if GuardAction.preventClose ∈ on_window_event ev then isOpen else false
  | _ => isOpen

/-- Open state of the window after a stream of events, starting open. -/
def windowOpenAfter (evs : List WindowEvent) : Bool :=
  evs.foldl applyWindowEvent true

/-- Total number of refocus requests the guard issues over a stream of
window events. -/
def refocusRequests (evs : List WindowEvent) : Nat :=
  (evs.map (fun e => (on_window_event e).count GuardAction.setFocus)).sum

/-! ## Escape Valve

Embedding of the emergency-exit logic of `main`/`setup`: the merged
enable policy, the fixed chord, registration, and the `on_shortcut`
callback that exits with status 0 on the `Pressed` transition.
-/

inductive Code where
  | keyQ
  | keyW
deriving DecidableEq

structure Shortcut where
  ctrl : Bool
  alt : Bool
  shift : Bool
  key : Code
deriving DecidableEq

inductive ShortcutState where
  | pressed
  | released
deriving DecidableEq

/-- Embedding of `enable_emergency_exit || cfg!(debug_assertions)`. -/
def emergencyExitEnabled (configFlag debugBuild : Bool) : Bool :=
  configFlag || debugBuild

/-- The fixed chord Ctrl+Alt+Shift+Q. -/
def escapeChord : Shortcut := ⟨true, true, true, Code.keyQ⟩

/-- The shortcut registered in `setup`: present exactly when the merged
policy enables the emergency exit. -/
def registeredShortcut (configFlag debugBuild : Bool) : Option Shortcut :=
  if emergencyExitEnabled configFlag debugBuild then some escapeChord else none

/-- Embedding of the `on_shortcut` callback body: on `Pressed` it calls
`app_handle_exit.exit(0)`, modelled as `some 0` (the exit status). -/
def emergencyExitHandler (st : ShortcutState) : Option Nat :=
  if st = ShortcutState.pressed then some 0 else none

/-- Process-level effect of a delivered chord event: the callback runs
only when a shortcut was registered and the delivered chord is it. -/
def escapeValveExit (configFlag debugBuild : Bool) (s : Shortcut) (st : ShortcutState) :
    Option Nat :=
  match registeredShortcut configFlag debugBuild with
  | some sc => if s = sc then emergencyExitHandler st else none
  | none => none

/-! ## Deep-link runtime delivery

Embedding of the `on_open_url` callback: it reads `evt.urls().first()`,
and when the `main` webview window exists, evaluates a
`window.location.replace` to the localized target.
-/

structure RuntimeState where
  hasMainWindow : Bool
deriving DecidableEq

/-- Embedding of the `on_open_url` closure: returns the (unchanged)
runtime state together with the list of navigation targets issued for
this one delivery event. -/
def on_open_url (st : RuntimeState) (base : String) (urls : List Url) :
    RuntimeState × List String :=
  match urls.head? with
  | some u => (st, if st.hasMainWindow then [to_local u base] else [])
  | none => (st, [])

/-! ## Monitor Census -/

/-- Embedding of `windows_security::get_monitor_count`:
`EnumDisplayMonitors` invokes `monitor_enum_proc` once per attached
monitor, incrementing a counter that starts at 0. -/
def enumDisplayMonitorsCount (monitors : List Unit) : Int :=
  monitors.foldl (fun count _ => count + 1) 0

/-- Embedding of the `get_monitor_count` command: enumerates on Windows,
returns the fixed sentinel 1 elsewhere. -/
def get_monitor_count (isWindows : Bool) (monitors : List Unit) : Int :=
  if isWindows then enumDisplayMonitorsCount monitors else 1

/-- Embedding of the `check_multiple_monitors` command: count `> 1` on
Windows, `false` elsewhere. -/
def check_multiple_monitors (isWindows : Bool) (monitors : List Unit) : Bool :=
  if isWindows then decide (enumDisplayMonitorsCount monitors > 1) else false

/-! ## Startup sequence of `main` -/

structure WindowConfig where
  title : String
  fullscreen : Bool
  always_on_top : Bool
  skip_taskbar : Bool
deriving DecidableEq

structure DebugConfig where
  enable_emergency_exit : Bool
deriving DecidableEq

structure LockdownConfig where
  base_url : String
  production_url : String
  window : WindowConfig
  debug_settings : DebugConfig
deriving DecidableEq

inductive StartupAction where
  | fatalPanic (msg : String)
  | installKeyboardHook
  | registerEscapeValve
  | createWindow
deriving DecidableEq

/-- Embedding of the startup sequence of `main`: `LockdownConfig::load`
panics (`expect`) when the embedded configuration string fails to parse,
aborting startup; only on success does the process go on to install the
keyboard hook (on Windows), register the escape valve when enabled, and
build the window. -/
def mainBoot (parsed : Except String LockdownConfig) (isWindows debugBuild : Bool) :
    List StartupAction :=
  match parsed with
  | Except.error _ => [StartupAction.fatalPanic "Invalid lockdown.config.json"]
  | Except.ok config =>
      (if isWindows then [StartupAction.installKeyboardHook] else [])
        ++ (if emergencyExitEnabled config.debug_settings.enable_emergency_exit debugBuild
              then [StartupAction.registerEscapeValve] else [])
        ++ [StartupAction.createWindow]

/-- Embedding of the base-URL selection in `main`: `cfg!(debug_assertions)`
selects `base_url`, otherwise `production_url`. -/
def selectBaseUrl (debugBuild : Bool) (config : LockdownConfig) : String :=
  if debugBuild then config.base_url else config.production_url

/-- Embedding of the initial navigation target: the localized cold-start
deep link when one was delivered, otherwise the selected base URL. -/
def entryUrl (debugBuild : Bool) (config : LockdownConfig) (coldStart : Option Url) :
    String :=
  match coldStart with
  | some u => to_local u (selectBaseUrl debugBuild config)
  | none => selectBaseUrl debugBuild config

/-- All navigation targets over a process life: the entry navigation,
then every runtime deep-link navigation, each of which uses the base URL
captured once at setup (`base_clone`). -/
def allNavigationTargets (debugBuild : Bool) (config : LockdownConfig)
    (coldStart : Option Url) (deliveries : List (List Url)) : List String :=
  entryUrl debugBuild config coldStart
    :: deliveries.flatMap
        (fun urls => (on_open_url ⟨true⟩ (selectBaseUrl debugBuild config) urls).2)

end Lockdown

namespace Lockdown

/-! ## Helper lemmas about the string trims -/

theorem string_eq_of_data {a b : String} (h : a.data = b.data) : a = b :=
  congrArg String.mk h

theorem trimEndSlashes_append_slash (s : String) :
    trimEndSlashes (s ++ "/") = trimEndSlashes s := by
  apply string_eq_of_data
  simp [trimEndSlashes, String.data_append]

theorem trimEndSlashes_eq_self {s : String} (h : s.data.getLast? ≠ some '/') :
    trimEndSlashes s = s := by
  apply string_eq_of_data
  rw [← List.head?_reverse] at h
  show (s.data.reverse.dropWhile (fun c => c == '/')).reverse = s.data
  cases hr : s.data.reverse with
  | nil =>
      have : s.data = [] := by
        have := congrArg List.reverse hr
        simpa using this
      simp [hr, this]
  | cons c t =>
      rw [hr] at h
      have hc : (c == '/') = false := by
        simp only [List.head?] at h
        simp only [beq_eq_false_iff_ne]
        intro hceq
        exact h (by rw [hceq])
      rw [List.dropWhile_cons, hc]
      simp only [if_false, Bool.false_eq_true]
      have := congrArg List.reverse hr
      simpa using this.symm

theorem trimStartSlashes_eq_self {s : String} (h : ∀ c ∈ s.data, c ≠ '/') :
    trimStartSlashes s = s := by
  apply string_eq_of_data
  show s.data.dropWhile (fun c => c == '/') = s.data
  cases hd : s.data with
  | nil => simp
  | cons c t =>
      have hc : (c == '/') = false := by
        simp only [beq_eq_false_iff_ne]
        exact h c (by rw [hd]; exact List.mem_cons_self c t)
      rw [List.dropWhile_cons, hc]
      simp

/-! ## Claim theorems: URI Localizer -/

/-- C2: with a slash-free base and a slash-free authority, `to_local`
produces exactly the spec shape `B`, then `/H` when the authority is
non-empty, then `/P` when the (slash-stripped) path is non-empty, then
`?Q` when a query is present; when all three are absent the result is
exactly `B`. -/
theorem uriLocalizer_shape (link : Url) (base : String)
    (hB : base.data.getLast? ≠ some '/')
    (hH : ∀ c ∈ (link.host.getD "").data, c ≠ '/') :
    to_local link base
      = localizeSpec base (link.host.getD "") (trimStartSlashes link.path) link.query
    ∧ (link.host.getD "" = "" → trimStartSlashes link.path = "" → link.query = none →
        to_local link base = base) := by
  have hbase : trimEndSlashes base = base := trimEndSlashes_eq_self hB
  obtain ⟨host, path, query⟩ := link
  have main : to_local ⟨host, path, query⟩ base
      = localizeSpec base (host.getD "") (trimStartSlashes path) query := by
    apply string_eq_of_data
    simp only [to_local, localizeSpec, hbase]
    cases host with
    | none =>
        by_cases hp : trimStartSlashes path = "" <;>
          cases query <;>
            simp [hp, String.isEmpty_iff, String.data_append]
    | some h =>
        have hh : trimStartSlashes h = h :=
          trimStartSlashes_eq_self (by simpa using hH)
        by_cases hhe : h = ""
        · by_cases hp : trimStartSlashes path = "" <;>
            cases query <;>
              simp [hhe, hp, String.isEmpty_iff, String.data_append]
        · by_cases hp : trimStartSlashes path = "" <;>
            cases query <;>
              simp [hh, hhe, hp, String.isEmpty_iff, String.data_append]
  refine ⟨main, fun hH0 hP0 hQ0 => ?_⟩
  simp only at hH0 hP0 hQ0
  rw [main, hH0, hP0, hQ0]
  simp [localizeSpec, String.append_empty]

/-- Witness for `uriLocalizer_shape` at the concrete deep link
`understandly_lockdown://quiz?x=1` against base `http://b`. -/
theorem uriLocalizer_shape_witness :
    ("http://b".data.getLast? ≠ some '/')
    ∧ (∀ c ∈ ((Url.mk (some "quiz") "" (some "x=1")).host.getD "").data, c ≠ '/')
    ∧ (to_local ⟨some "quiz", "", some "x=1"⟩ "http://b"
        = localizeSpec "http://b" "quiz" (trimStartSlashes "") (some "x=1")
      ∧ ("quiz" = "" → trimStartSlashes "" = "" → (some "x=1" : Option String) = none →
          to_local ⟨some "quiz", "", some "x=1"⟩ "http://b" = "http://b")) := by
  refine ⟨by decide, by decide, ?_⟩
  exact uriLocalizer_shape ⟨some "quiz", "", some "x=1"⟩ "http://b" (by decide) (by decide)

/-- C3: localizing against `B` and against `B ++ "/"` agree, because the
base is normalized by stripping every trailing slash before any segment
is appended. -/
theorem uriLocalizer_trailing_slash (link : Url) (base : String) :
    to_local link base = to_local link (base ++ "/") := by
  simp only [to_local, trimEndSlashes_append_slash]

/-! ## Claim theorems: Global Input Guard -/

/-- C1: for every delivered event with a non-negative hook code, the hook
suppresses exactly the key-down (or system-key-down) events matching the
denylist — Alt+Tab, Alt+Escape, Alt+F4, either Windows key, PrintScreen,
F12, Ctrl+C/V/P — and forwards everything else, in particular every
key-up transition. -/
theorem inputGuard_decision (ev : KbdHookEvent) (h : 0 ≤ ev.code) :
    keyboard_hook_proc ev = HookResult.suppress
      ↔ (isKeyDownMsg ev = true ∧ deniedBySpec ev = true) := by
  simp only [keyboard_hook_proc, isKeyDownMsg, deniedBySpec, if_pos h]
  split_ifs <;> simp_all
  all_goals tauto

/-- Witness for `inputGuard_decision` at a concrete Alt+Tab key-down
event (hook code 0, `WM_KEYDOWN`, vkCode 0x09, `LLKHF_ALTDOWN` set). -/
theorem inputGuard_decision_witness :
    (0 : Int) ≤ (KbdHookEvent.mk 0 0x0100 0x09 0x20 false).code
    ∧ (keyboard_hook_proc ⟨0, 0x0100, 0x09, 0x20, false⟩ = HookResult.suppress
        ↔ (isKeyDownMsg ⟨0, 0x0100, 0x09, 0x20, false⟩ = true
            ∧ deniedBySpec ⟨0, 0x0100, 0x09, 0x20, false⟩ = true)) :=
  ⟨by decide, inputGuard_decision ⟨0, 0x0100, 0x09, 0x20, false⟩ (by decide)⟩

/-! ## Claim theorems: Window Lifecycle Guard -/

theorem monitors_foldl (m : List Unit) (a : Int) :
    m.foldl (fun count _ => count + 1) a = a + m.length := by
  induction m generalizing a with
  | nil => simp
  | cons x t ih => simp [List.foldl_cons, ih]; ring

/-- C4: every close request is vetoed by `prevent_close`, so the window
is still open after any number `n ≥ 1` of consecutive close-request
events. -/
theorem closeGuard_veto (n : Nat) (h : 1 ≤ n) :
    windowOpenAfter (List.replicate n WindowEvent.closeRequested) = true := by
  have step : ∀ b, applyWindowEvent b WindowEvent.closeRequested = b := by decide
  have gen : ∀ (k : Nat) (b : Bool),
      (List.replicate k WindowEvent.closeRequested).foldl applyWindowEvent b = b := by
    intro k
    induction k with
    | zero => intro b; rfl
    | succ j ih => intro b; simp [List.replicate_succ, List.foldl_cons, step, ih]
  exact gen n true

/-- Witness for `closeGuard_veto` at three consecutive close requests. -/
theorem closeGuard_veto_witness :
    1 ≤ 3
    ∧ windowOpenAfter (List.replicate 3 WindowEvent.closeRequested) = true :=
  ⟨by decide, closeGuard_veto 3 (by decide)⟩

/-- C7: the guard issues exactly one refocus request on a focus-lost
event, and over any event stream the number of refocus requests equals
the number of focus-lost events — no debouncing, no budget. -/
theorem focusGuard_refocus (evs : List WindowEvent) :
    (on_window_event (WindowEvent.focused false)).count GuardAction.setFocus = 1
    ∧ refocusRequests evs = evs.count (WindowEvent.focused false) := by
  refine ⟨by decide, ?_⟩
  induction evs with
  | nil => rfl
  | cons e t ih =>
      have he : (on_window_event e).count GuardAction.setFocus
          = if e = WindowEvent.focused false then 1 else 0 := by
        rcases e with _ | b | _
        · decide
        · cases b <;> decide
        · decide
      simp [refocusRequests, List.count_cons, he] at ih ⊢
      split_ifs <;> simp_all <;> omega

/-! ## Claim theorems: Escape Valve -/

/-- C5: the escape-valve shortcut is registered exactly when the explicit
configuration flag is set or the build is a debug build; when enabled, a
`Pressed` delivery of the chord exits with status 0 and a `Released`
delivery does not; when disabled, the chord never terminates. -/
theorem escapeValve_spec :
    ∀ (configFlag debugBuild : Bool),
      ((registeredShortcut configFlag debugBuild).isSome = (configFlag || debugBuild))
      ∧ (escapeValveExit configFlag debugBuild escapeChord ShortcutState.pressed
          = if configFlag || debugBuild then some 0 else none)
      ∧ (escapeValveExit configFlag debugBuild escapeChord ShortcutState.released
          = none) := by
  decide

/-! ## Claim theorems: deep-link delivery -/

/-- C6 counterexample: a delivery event carrying two URIs triggers a
navigation only for the first one; the localized target of the second
URI is never navigated to, refuting the claim that each URI delivered in
an event triggers a navigation. -/
theorem deepLink_first_uri_counterexample :
    (on_open_url ⟨true⟩ "http://b" [⟨none, "/a", none⟩, ⟨none, "/c", none⟩]).2
      = ["http://b/a"]
    ∧ to_local ⟨none, "/c", none⟩ "http://b"
        ∉ (on_open_url ⟨true⟩ "http://b" [⟨none, "/a", none⟩, ⟨none, "/c", none⟩]).2 := by
  decide

/-- C6 (amended): for every deep-link delivery event received while the
main window exists, the first URI of the event (if any) triggers exactly
one in-place navigation of the existing window — the runtime state is
unchanged, so no new window is created — with the target computed by the
URI Localizer against the configured base; later URIs of the same event
and empty events trigger nothing. -/
theorem deepLink_navigation (st : RuntimeState) (base : String) (u : Url)
    (rest : List Url) (h : st.hasMainWindow = true) :
    (on_open_url st base (u :: rest)).1 = st
    ∧ (on_open_url st base (u :: rest)).2 = [to_local u base]
    ∧ (on_open_url st base []).2 = [] := by
  simp [on_open_url, h]

/-- Witness for `deepLink_navigation` at a concrete two-URI delivery. -/
theorem deepLink_navigation_witness :
    (RuntimeState.mk true).hasMainWindow = true
    ∧ ((on_open_url ⟨true⟩ "http://b" [⟨none, "/a", none⟩, ⟨none, "/c", none⟩]).1
          = ⟨true⟩
      ∧ (on_open_url ⟨true⟩ "http://b" [⟨none, "/a", none⟩, ⟨none, "/c", none⟩]).2
          = [to_local ⟨none, "/a", none⟩ "http://b"]
      ∧ (on_open_url ⟨true⟩ "http://b" []).2 = []) :=
  ⟨rfl, deepLink_navigation ⟨true⟩ "http://b" ⟨none, "/a", none⟩ [⟨none, "/c", none⟩] rfl⟩

/-! ## Claim theorems: Monitor Census -/

/-- C8: the monitor-count query returns the exact number of enumerated
displays on Windows and the sentinel 1 elsewhere, is never negative, and
the multiple-monitors query answers true exactly when the count exceeds
one. -/
theorem monitorCensus_spec :
    ∀ (isWindows : Bool) (monitors : List Unit),
      get_monitor_count isWindows monitors
          = (if isWindows then (monitors.length : Int) else 1)
      ∧ 0 ≤ get_monitor_count isWindows monitors
      ∧ (check_multiple_monitors isWindows monitors = true
          ↔ 1 < get_monitor_count isWindows monitors) := by
  intro w m
  have hcount : enumDisplayMonitorsCount m = (m.length : Int) := by
    simp [enumDisplayMonitorsCount, monitors_foldl]
  cases w <;> simp [get_monitor_count, check_multiple_monitors, hcount]

/-! ## Claim theorems: startup -/

/-- C9: when the configuration string fails to parse, startup aborts with
the `expect` panic and performs none of the later steps — no keyboard
hook is installed, no escape valve is registered, and no window is
created, so no partially-enforced running state exists. -/
theorem startupFatal_spec (e : String) (isWindows debugBuild : Bool) :
    mainBoot (Except.error e) isWindows debugBuild
        = [StartupAction.fatalPanic "Invalid lockdown.config.json"]
    ∧ StartupAction.createWindow ∉ mainBoot (Except.error e) isWindows debugBuild
    ∧ StartupAction.installKeyboardHook ∉ mainBoot (Except.error e) isWindows debugBuild
    ∧ StartupAction.registerEscapeValve ∉ mainBoot (Except.error e) isWindows debugBuild := by
  refine ⟨rfl, ?_, ?_, ?_⟩ <;> simp [mainBoot]

/-- C10: the navigation origin is selected once, purely from the
build-time debug indicator (debug builds use `base_url`, production
builds `production_url`), and every navigation target over the whole
process life — the cold-start entry and every runtime deep-link
navigation — is computed against that same origin. -/
theorem originSelection_spec (debugBuild : Bool) (config : LockdownConfig)
    (coldStart : Option Url) (deliveries : List (List Url)) :
    selectBaseUrl debugBuild config
        = (if debugBuild then config.base_url else config.production_url)
    ∧ ∀ t ∈ allNavigationTargets debugBuild config coldStart deliveries,
        t = selectBaseUrl debugBuild config
        ∨ ∃ u : Url, t = to_local u (selectBaseUrl debugBuild config) := by
  refine ⟨rfl, ?_⟩
  intro t ht
  simp only [allNavigationTargets, List.mem_cons, List.mem_flatMap] at ht
  rcases ht with h1 | ⟨urls, _, h2⟩
  · cases coldStart with
    | some u => right; exact ⟨u, by simpa [entryUrl] using h1⟩
    | none => left; simpa [entryUrl] using h1
  · cases urls with
    | nil => simp [on_open_url] at h2
    | cons u rest =>
        right
        refine ⟨u, ?_⟩
        simp [on_open_url] at h2
        exact h2

end Lockdown
